import Mathlib

/-! # SentinelQA execution engine: formal model

Shallow embedding of `backend/worker.py`: the page-state tracker's
navigation detection, the AI decision controller's degradation
behaviour, the action-executor / verification-engine dispatch, the
self-healing selector engine's cache, and the bounded AI execution
loop of `AuthenticationAwareWorker.run_test`, together with theorems
settling the specification's claims.

Conventions: Python dicts with optional keys become structures of
`Option String` fields, with `Option.getD` at each access mirroring
`dict.get(key, default)`. Live Playwright objects (pages, locators)
are modelled as records of total query functions; the element handle
itself is not represented. Logging and screenshots carry no
control-flow weight in the source and are either dropped or threaded
as abstract strings supplied by the environment. -/

namespace SentinelQA

/-- Python's `in` operator on strings: substring containment (an empty
pattern always matches). -/
def strContains (s pat : String) : Bool :=
  pat = "" || (s.splitOn pat).length > 1

/-- Python's `str.startswith`, on the character lists so that it
evaluates by reduction. -/
def strStartsWith (s pre : String) : Bool :=
  List.isPrefixOf pre.data s.data

/-- Python's `str.replace` (replace every non-overlapping occurrence,
left to right), via `splitOn`, so that it evaluates by reduction. -/
def strReplace (s pat rep : String) : String :=
  String.intercalate rep (s.splitOn pat)

/-! ## PageStateTracker (worker.py lines 19-87) -/

/-- The components of `urllib.parse.urlparse` that
`PageStateTracker.detect_navigation` compares. URLs are modelled
post-parse, as the four components the source reads. -/
structure UrlParts where
  netloc : String
  path : String
  query : String
  fragment : String
deriving DecidableEq

/-- `PageStateTracker.detect_navigation` (worker.py lines 36-65): the
tracker state is its `previous_url` baseline; the function returns the
updated baseline together with the `(navigated, description)` pair the
caller receives. -/
def detect_navigation (previous_url : Option UrlParts) (current_url : UrlParts) :
    Option UrlParts × Bool × String :=
  match previous_url with
  | none => (some current_url, false, "")
  | some prev =>
    if prev.netloc ≠ current_url.netloc then
      (some current_url, true,
       "Domain changed: " ++ prev.netloc ++ " → " ++ current_url.netloc)
    else if prev.path ≠ current_url.path then
      (some current_url, true,
       "Path changed: " ++ prev.path ++ " → " ++ current_url.path)
    else if prev.query ≠ current_url.query ∨ prev.fragment ≠ current_url.fragment then
      (some current_url, false, "URL params changed (possible state change)")
    else (some prev, false, "")

/-! ## Oracle action dictionaries -/

/-- An oracle action dictionary: the keys the worker reads, each
`Option` (absent key = `none`), with `Option.getD` mirroring
`dict.get`. -/
structure ActionData where
  action : Option String := none
  selector : Option String := none
  value : Option String := none
  reasoning : Option String := none
  verify_type : Option String := none
  expected : Option String := none
  assertion : Option String := none
deriving DecidableEq

/-! ## AIVisionController (worker.py lines 497-683) -/

/-- The code-fence stripping of
`AIVisionController.analyze_page_and_get_action` (worker.py lines
655-661): strip the response, then cut out the body of a
triple-backtick fence, preferring a ```json fence. -/
def extract_json_content (raw : String) : String :=
  let content := raw.trim
  if strContains content "```json" then
    ((((content.splitOn "```json").getD 1 "").splitOn "```").getD 0 "").trim
  else if strContains content "```" then
    ((((content.splitOn "```").getD 1 "").splitOn "```").getD 0 "").trim
  else content

/-- The outcome of the vision API call: either the raised exception's
message or the response content. -/
inductive OracleCall where
  | failure (err : String)
  | response (content : String)

/-- `AIVisionController.analyze_page_and_get_action` (worker.py lines
630-683), from the API call onward. `parseJson` abstracts `json.loads`
(`.error` carries the decode-error message). Every failure path returns
a synthetic `wait` action; the function is total, so no exception
reaches the caller. -/
def analyze_page_and_get_action (parseJson : String → Except String ActionData)
    (call : OracleCall) : ActionData :=
  match call with
  | .failure e =>
    { action := some "wait", selector := some "", value := some "",
      reasoning := some ("AI request failed: " ++ e) }
  | .response raw =>
    match parseJson (extract_json_content raw) with
    | .ok a => a
    | .error e =>
      { action := some "wait", selector := some "", value := some "",
        reasoning := some ("AI response was not valid JSON: " ++ e) }

/-! ## VerificationEngine (worker.py lines 964-1134) -/

/-- A Playwright locator as the verification engine builds one: a CSS
selector lookup or a `get_by_text` lookup. -/
inductive VLocator where
  | css (sel : String)
  | text (t : String)
deriving DecidableEq

/-- A live page as the verification engine queries it: total query
functions over locators, plus the current URL. -/
structure VPage where
  count : VLocator → Nat
  firstVisible : VLocator → Bool
  firstEnabled : VLocator → Bool
  firstInnerText : VLocator → String
  url : String

/-- The result dict of `AuthenticationAwareWorker.execute_verification`. -/
structure VerificationResult where
  passed : Bool
  assertion : String
  verify_type : String
  expected : String
  actual : String
  confidence : String
  reason : String
  selector_used : String
deriving DecidableEq

/-- `AuthenticationAwareWorker.execute_verification` (worker.py lines
964-1134). Page queries are total here, so the source's `except` arms
that convert lookup errors into failed results are unreachable and the
final catch-all is dropped. The resolution phase mirrors lines
987-1030: the provided selector, then a text search for `expected`,
then an aria-label fallback, each recording a "tried" entry on
failure; `url_contains` (lines 1033-1043) then bypasses the resolved
locator, and a run with no resolved locator fails early (lines
1046-1050) before the per-type dispatch (lines 1053-1122). -/
def execute_verification (page : VPage) (verification : ActionData) :
    VerificationResult :=
  let selector := verification.selector.getD ""
  let verify_type := verification.verify_type.getD "exists"
  let expected := verification.expected.getD ""
  let assertion := verification.assertion.getD ("Verify " ++ verify_type)
  let result0 : VerificationResult :=
    { passed := false, assertion := assertion, verify_type := verify_type,
      expected := expected, actual := "", confidence := "low", reason := "",
      selector_used := selector }
  let resolution : Option VLocator × List String × VerificationResult :=
    if selector ≠ "" then
      let step1 : Option VLocator × List String × VerificationResult :=
        if page.count (.css selector) = 0 then
          (none, [selector ++ " (not found)"], result0)
        else
          (some (.css selector), [], { result0 with confidence := "high" })
      let step2 : Option VLocator × List String × VerificationResult :=
        if step1.1.isNone ∧ expected ≠ "" then
          if 0 < page.count (.text expected) then
            (some (.text expected), step1.2.1,
             { step1.2.2 with
               selector_used := "text='" ++ expected ++ "'",
               confidence := "medium" })
          else
            (step1.1, step1.2.1 ++ ["text='" ++ expected ++ "' (not found)"],
             step1.2.2)
        else step1
      if step2.1.isNone ∧ expected ≠ "" then
        let aria := "[aria-label*=\"" ++ expected ++ "\" i]"
        if 0 < page.count (.css aria) then
          (some (.css aria), step2.2.1,
           { step2.2.2 with selector_used := aria, confidence := "medium" })
        else (step2.1, step2.2.1 ++ [aria ++ " (not found)"], step2.2.2)
      else step2
    else (none, [], result0)
  let locator := resolution.1
  let selectors_tried := resolution.2.1
  let result1 := resolution.2.2
  if verify_type = "url_contains" then
    { result1 with
      actual := page.url,
      passed := strContains page.url.toLower expected.toLower,
      confidence := "high",
      reason :=
        if strContains page.url.toLower expected.toLower then
          "URL contains '" ++ expected ++ "'"
        else "URL does not contain '" ++ expected ++ "'" }
  else
    match locator with
    | none =>
      { result1 with
        reason := "Element not found. Tried selectors: " ++
          String.intercalate ", " selectors_tried,
        confidence := "low" }
    | some loc =>
      if verify_type = "exists" then
        let count := page.count loc
        { result1 with
          passed := decide (0 < count),
          actual := toString count ++ " element(s) found",
          reason :=
            if 0 < count then "Element exists" else "Element not found in DOM" }
      else if verify_type = "visible" then
        let vis := page.firstVisible loc
        { result1 with
          passed := vis,
          actual := if vis then "visible" else "not visible",
          reason :=
            if vis then "Element is visible" else "Element exists but not visible" }
      else if verify_type = "not_visible" then
        if page.count loc = 0 then
          { result1 with
            passed := true,
            actual := "not present",
            reason := "Element not present in DOM (good)" }
        else
          let vis := page.firstVisible loc
          { result1 with
            passed := !vis,
            actual := if vis then "still visible" else "hidden",
            reason :=
              if vis then "Element still visible (should be hidden)"
              else "Element hidden" }
      else if verify_type = "enabled" then
        let en := page.firstEnabled loc
        { result1 with
          passed := en,
          actual := if en then "enabled" else "disabled",
          reason :=
            if en then "Element is clickable" else "Element is disabled" }
      else if verify_type = "text_contains" then
        let actual_text := page.firstInnerText loc
        { result1 with
          passed := strContains actual_text.toLower expected.toLower,
          actual := actual_text.take 100,
          reason :=
            if strContains actual_text.toLower expected.toLower then
              "Text contains '" ++ expected ++ "'"
            else "Text does not contain '" ++ expected ++ "'" }
      else if verify_type = "text_equals" then
        let actual_text := page.firstInnerText loc
        { result1 with
          passed := expected.trim.toLower == actual_text.trim.toLower,
          actual := actual_text.trim,
          reason :=
            if expected.trim.toLower == actual_text.trim.toLower then
              "Text matches exactly"
            else "Text mismatch: got '" ++ actual_text.trim ++ "'" }
      else
        { result1 with reason := "Unknown verification type: " ++ verify_type }

/-! ## ActionExecutor (worker.py lines 755-962) -/

/-- The per-kind actuation effects of `execute_action`, abstracted:
each field stands for the whole body of one dispatch branch (the click
cascade, the fill fallbacks, `goto`, the key press, the wait),
returning `.error` when that body would raise. The dispatch structure
itself is what the model embeds. -/
structure ExecEffects where
  click : String → Except String Unit
  fill : String → String → Except String Unit
  goto : String → Except String Unit
  press : String → Except String Unit
  waitFor : String → Except String Unit

/-- The value `execute_action` hands back: `True`/`False` for ordinary
actions, the verification result dict for `verify`. -/
inductive ExecResult where
  | bool (b : Bool)
  | verify (r : VerificationResult)
deriving DecidableEq

/-- Python truthiness of an `execute_action` return value (a nonempty
dict is truthy). -/
def ExecResult.toBool : ExecResult → Bool
  | .bool b => b
  | .verify _ => true

/-- `AuthenticationAwareWorker.execute_action` (worker.py lines
755-962): dispatch on the action kind; an unknown kind falls through
every branch to the final `return False` (line 958); any exception
inside a branch is caught and becomes `False` (lines 960-962). -/
def execute_action (eff : ExecEffects) (page : VPage) (action_data : ActionData) :
    ExecResult :=
  let action := action_data.action.getD "wait"
  let selector := action_data.selector.getD ""
  let value := action_data.value.getD ""
  let body : Except String ExecResult :=
    if action = "click" then do eff.click selector; pure (.bool true)
    else if action = "type" then do eff.fill selector value; pure (.bool true)
    else if action = "navigate" then do eff.goto value; pure (.bool true)
    else if action = "press" then do eff.press value.trim; pure (.bool true)
    else if action = "wait" then do eff.waitFor selector; pure (.bool true)
    else if action = "verify" then
      pure (.verify (execute_verification page action_data))
    else if action = "complete" then pure (.bool true)
    else pure (.bool false)
  match body with
  | .ok r => r
  | .error _ => .bool false

/-! ## SelfHealingEngine (worker.py lines 90-494) -/

/-- A cached healing record: the values of
`SelfHealingEngine.healed_selectors` (worker.py lines 472-477). -/
structure CacheEntry where
  selector : Option String
  strategy : Option String
  confidence : Option String
  healed_at : String
deriving DecidableEq

/-- One `healing_history` event (worker.py lines 479-484). -/
structure HealEventRecord where
  original : String
  healed : Option String
  strategy : Option String
  timestamp : String
deriving DecidableEq

/-- The mutable state of a `SelfHealingEngine` instance (worker.py
lines 115-117). -/
structure HealingEngineState where
  healing_history : List HealEventRecord
  healed_selectors : String → Option CacheEntry

/-- The page queries the healing lookup makes: CSS-locator counts and
first-match visibility, and the same for `get_by_text` lookups. -/
structure HealPage where
  locatorCount : String → Nat
  locatorFirstVisible : String → Bool
  textCount : String → Nat
  textFirstVisible : String → Bool

/-- A successful healing strategy's report: every `found = True` return
of strategies 2-5 carries exactly these three fields besides the
element handle. -/
structure StrategySuccess where
  selector : String
  strategy : String
  confidence : String
deriving DecidableEq

/-- The result dict of `find_element_with_healing` (worker.py lines
140-148); the live element handle is not modelled. -/
structure HealResult where
  found : Bool
  healed : Bool
  original_selector : String
  healed_selector : Option String
  strategy_used : Option String
  confidence : String
deriving DecidableEq

/-- `SelfHealingEngine._cache_healing` (worker.py lines 470-486):
store the healed mapping under the original selector and append a
history event. -/
def cache_healing (engine : HealingEngineState) (original : String)
    (suc : StrategySuccess) (now : String) : HealingEngineState :=
  { healed_selectors := fun k =>
      if k = original then
        some { selector := some suc.selector, strategy := some suc.strategy,
               confidence := some suc.confidence, healed_at := now }
      else engine.healed_selectors k,
    healing_history := engine.healing_history ++
      [{ original := original, healed := some suc.selector,
         strategy := some suc.strategy, timestamp := now }] }

/-- The cache check heading `find_element_with_healing` (worker.py
lines 150-166): a hit needs a cached entry whose selector still
matches at least one element; a `None` cached selector makes
`page.locator` raise and the `except` falls through, as does a cached
selector that no longer matches. -/
def cache_lookup (page : HealPage) (original_selector : String)
    (engine : HealingEngineState) : Option HealResult :=
  match engine.healed_selectors original_selector with
  | some cached =>
    match cached.selector with
    | some csel =>
      if 0 < page.locatorCount csel then
        some { found := true, healed := true,
               original_selector := original_selector,
               healed_selector := some csel,
               strategy_used := some "cached_healing",
               confidence := cached.confidence.getD "medium" }
      else none
    | none => none
  | none => none

/-- `SelfHealingEngine.find_element_with_healing` (worker.py lines
119-225). The four healing strategies (`_heal_by_text`, given the
nonempty text hint; `_heal_by_aria`; `_heal_by_testid`;
`_heal_by_ai_vision`) are abstracted as their outcome against the
current page, `none` meaning not found; the AI strategy is consulted
only when an `ai_controller` is configured. Returns the result dict
together with the engine state after any caching. -/
def find_element_with_healing (page : HealPage) (original_selector : String)
    (context : ActionData) (ai_configured : Bool)
    (healByText : String → Option StrategySuccess)
    (healByAria healByTestid healByAI : Option StrategySuccess)
    (now : String) (engine : HealingEngineState) :
    HealResult × HealingEngineState :=
  let base : HealResult :=
    { found := false, healed := false, original_selector := original_selector,
      healed_selector := none, strategy_used := none, confidence := "low" }
  match cache_lookup page original_selector engine with
  | some r => (r, engine)
  | none =>
    let original_ok : Bool :=
      if strStartsWith original_selector "text=" then
        let t := strReplace original_selector "text=" ""
        decide (0 < page.textCount t) && page.textFirstVisible t
      else
        decide (0 < page.locatorCount original_selector) &&
          page.locatorFirstVisible original_selector
    if original_ok then
      ({ base with
         found := true, strategy_used := some "original",
         confidence := "high" }, engine)
    else
      let applied (suc : StrategySuccess) : HealResult × HealingEngineState :=
        ({ base with
           found := true, healed := true, healed_selector := some suc.selector,
           strategy_used := some suc.strategy, confidence := suc.confidence },
         cache_healing engine original_selector suc now)
      let text_hint :=
        let r := context.reasoning.getD ""
        if r = "" then context.value.getD "" else r
      match (if text_hint = "" then none else healByText text_hint) with
      | some suc => applied suc
      | none =>
        match healByAria with
        | some suc => applied suc
        | none =>
          match healByTestid with
          | some suc => applied suc
          | none =>
            match (if ai_configured then healByAI else none) with
            | some suc => applied suc
            | none => (base, engine)

/-! ## The AI execution loop of run_test (worker.py lines 1225-1509) -/

/-- The `capture_failure_evidence` output plus the `reason` the loop
sets afterwards (worker.py lines 1136-1179 and 1365, 1392): the
screenshot and DOM snippet come from the environment and stay `none`
when their capture fails. -/
structure FailureEvidence where
  step : Nat
  timestamp : String
  action : String
  selector : String
  reason : String
  screenshot_b64 : Option String
  dom_snippet : Option String
deriving DecidableEq

/-- Everything one loop iteration draws from the outside world: whether
the step body raises (modelled as raising after the tracker update),
the oracle's decision (the output of the total
`analyze_page_and_get_action`), the page as the executor and verifier
query it, the abstracted branch effects, the current URL for the
tracker, and the raw strings an evidence capture would record. -/
structure StepEnv where
  raises : Option String
  action_data : ActionData
  page : VPage
  eff : ExecEffects
  current_url : UrlParts
  timestamp : String
  screenshot_b64 : Option String
  dom_snippet : Option String

/-- The loop-local variables of `run_test` (worker.py lines
1267-1288), plus `captures`, an instrumentation counter of how many
times failure evidence was assigned (the source assigns
`failure_info` exactly when it sets `failure_captured = True`). -/
structure LoopState where
  step_count : Nat
  previous_url : Option UrlParts
  action_history : List String
  test_failed : Bool
  v_total : Nat
  v_passed : Nat
  failure_captured : Bool
  failure_info : Option FailureEvidence
  captures : Nat
deriving DecidableEq

/-- The evidence record captured during the step `s.step_count`, with
the `reason` its caller sets (worker.py lines 1140-1147). -/
def mkEvidence (step : Nat) (env : StepEnv) (a : ActionData) (reason : String) :
    FailureEvidence :=
  { step := step, timestamp := env.timestamp, action := a.action.getD "unknown",
    selector := a.selector.getD "N/A", reason := reason,
    screenshot_b64 := env.screenshot_b64, dom_snippet := env.dom_snippet }

/-- One iteration body of the AI loop (worker.py lines 1295-1402),
run after `step_count` was incremented and the tracker updated:
returns the new state and whether the loop continues (`false` models
`break`). The verify arm mirrors lines 1337-1371 (totals, evidence on
first failure, history entry, continue); the final arm mirrors lines
1372-1394 (history on success, evidence and `break` on failure); a
step exception mirrors lines 1399-1402. -/
def loop_body (env : StepEnv) (s : LoopState) : LoopState × Bool :=
  match env.raises with
  | some _ => (s, false)
  | none =>
    let a := env.action_data
    let action := a.action.getD "unknown"
    let reasoning := a.reasoning.getD "No reasoning provided"
    if action = "complete" then (s, false)
    else if action = "verify" then
      match execute_action env.eff env.page a with
      | .verify vr =>
        let s1 := { s with v_total := s.v_total + 1 }
        let s2 :=
          if vr.passed then { s1 with v_passed := s1.v_passed + 1 }
          else
            let sf := { s1 with test_failed := true }
            if sf.failure_captured then sf
            else
              { sf with
                failure_captured := true,
                failure_info := some (mkEvidence sf.step_count env a vr.reason),
                captures := sf.captures + 1 }
        ({ s2 with
           action_history := s2.action_history ++
             ["verify: " ++ vr.assertion ++ " - " ++
              (if vr.passed then "PASS" else "FAIL")] },
         true)
      | .bool _ => (s, true)
    else
      if (execute_action env.eff env.page a).toBool then
        ({ s with
           action_history := s.action_history ++
             [a.action.getD "None" ++ " on '" ++ a.selector.getD "" ++ "' - " ++
              reasoning.take 50] },
         true)
      else
        let sf := { s with test_failed := true }
        if sf.failure_captured then (sf, false)
        else
          ({ sf with
             failure_captured := true,
             failure_info := some (mkEvidence sf.step_count env a
               ("Failed to execute " ++ a.action.getD "None" ++ " on " ++
                a.selector.getD "None")),
             captures := sf.captures + 1 },
           false)

/-- The head of one loop iteration (worker.py lines 1291-1305):
increment `step_count` and feed the navigation tracker (whose output
is log-only). -/
def trackState (env : StepEnv) (s : LoopState) : LoopState :=
  { s with
    step_count := s.step_count + 1,
    previous_url := (detect_navigation s.previous_url env.current_url).1 }

/-- The AI execution loop of `run_test` (worker.py lines 1290-1405):
`while step_count < max_steps`, modelled with the remaining iteration
budget as fuel. Each iteration runs `trackState` and then
`loop_body`. -/
def stepLoop (beh : Nat → StepEnv) : Nat → LoopState → LoopState
  | 0, s => s
  | fuel + 1, s =>
    match loop_body (beh (s.step_count + 1)) (trackState (beh (s.step_count + 1)) s) with
    | (s2, true) => stepLoop beh fuel s2
    | (s2, false) => s2

/-- The fresh loop state of `run_test` (worker.py lines 1267-1288). -/
def startState : LoopState :=
  { step_count := 0, previous_url := none, action_history := [],
    test_failed := false, v_total := 0, v_passed := 0,
    failure_captured := false, failure_info := none, captures := 0 }

/-- The loop as `run_test` enters it: `max_steps = 10` (worker.py line
1267), fresh state. -/
def run_ai_loop (beh : Nat → StepEnv) : LoopState :=
  stepLoop beh 10 startState

/-! ## Outcome assembly of run_test (worker.py lines 1431-1509) -/

/-- The outcome-status rule of `run_test` (worker.py lines 1443-1452),
for a run where `error` and `test_failed` are both defined at that
point. -/
def derive_status (error test_failed : Bool) (v_total v_passed : Nat) : String :=
  let has_failed_verifications := decide (0 < v_total) && decide (v_passed < v_total)
  if error || test_failed || has_failed_verifications then "fail"
  else if v_total = 0 then "inconclusive"
  else "pass"

/-- A `run_test` outcome, restricted to the fields the claims speak
about (worker.py lines 1490-1507). -/
structure RunOutcome where
  status : String
  v_total : Nat
  v_passed : Nat
  v_failed : Nat
  failure_info : Option FailureEvidence
deriving DecidableEq

/-- `AuthenticationAwareWorker.run_test` (worker.py lines 1225-1509)
around the loop: the navigation outcome, the AI-branch guard
`if self.ai_controller and instruction:` (line 1265), and the outcome
assembly. The `try/except NameError` of lines 1434-1441 guards the
reads of `verifications_passed`, `verifications_total` and
`failure_info`, but line 1446 reads `test_failed` unguarded: when the
AI branch never ran (`final = none`) those three reads fall back to
their defaults, and then — unless the short-circuiting `error or`
already decided the condition — the bare `test_failed` lookup raises
`UnboundLocalError` (a `NameError`), modelled as the `.error` return. -/
def run_test (ai_configured : Bool) (instruction : String) (nav_ok : Bool)
    (beh : Nat → StepEnv) : Except String RunOutcome :=
  let error : Option String := if nav_ok then none else some "Navigation failed"
  let loop_ran := nav_ok && ai_configured && instruction != ""
  let final : Option LoopState := if loop_ran then some (run_ai_loop beh) else none
  let v_passed := match final with | some st => st.v_passed | none => 0
  let v_total := match final with | some st => st.v_total | none => 0
  let fail_info : Option FailureEvidence :=
    match final with
    | some st => if st.failure_captured then st.failure_info else none
    | none => none
  match error with
  | some _ =>
    .ok { status := "fail", v_total := v_total, v_passed := v_passed,
          v_failed := v_total - v_passed, failure_info := fail_info }
  | none =>
    match final with
    | none =>
      .error "UnboundLocalError: local variable test_failed referenced before assignment"
    | some st =>
      .ok { status := derive_status false st.test_failed v_total v_passed,
            v_total := v_total, v_passed := v_passed,
            v_failed := v_total - v_passed, failure_info := fail_info }

/-! ## Sample pages and environments for concrete evaluations -/

/-- A page on which every query finds nothing. -/
def emptyPage : VPage :=
  { count := fun _ => 0, firstVisible := fun _ => false,
    firstEnabled := fun _ => false, firstInnerText := fun _ => "",
    url := "https://example.com/" }

/-- A page with exactly one `#banner` element, present but hidden. -/
def hiddenBannerPage : VPage :=
  { count := fun l => if l = .css "#banner" then 1 else 0,
    firstVisible := fun _ => false, firstEnabled := fun _ => false,
    firstInnerText := fun _ => "", url := "https://example.com/" }

/-- Branch effects that always succeed. -/
def okEffects : ExecEffects :=
  { click := fun _ => .ok (), fill := fun _ _ => .ok (),
    goto := fun _ => .ok (), press := fun _ => .ok (),
    waitFor := fun _ => .ok () }

/-- Branch effects whose click cascade raises. -/
def clickFailEffects : ExecEffects :=
  { click := fun _ => .error "Timeout 5000ms exceeded", fill := fun _ _ => .ok (),
    goto := fun _ => .ok (), press := fun _ => .ok (),
    waitFor := fun _ => .ok () }

/-- A sample parsed URL. -/
def sampleUrl : UrlParts :=
  { netloc := "example.com", path := "/", query := "", fragment := "" }

/-- An environment whose oracle always answers `wait` and whose
effects succeed. -/
def waitEnv : StepEnv :=
  { raises := none,
    action_data := { action := some "wait", selector := some "",
                     value := some "", reasoning := some "idle" },
    page := emptyPage, eff := okEffects, current_url := sampleUrl,
    timestamp := "0.00s", screenshot_b64 := none, dom_snippet := none }

/-- An environment whose oracle asks for an `exists` verification that
fails on the empty page. -/
def verifyFailEnv : StepEnv :=
  { raises := none,
    action_data := { action := some "verify", selector := some "#cart-count",
                     verify_type := some "exists", expected := some "1",
                     assertion := some "Cart badge shows one item",
                     reasoning := some "check the cart" },
    page := emptyPage, eff := okEffects, current_url := sampleUrl,
    timestamp := "1.00s", screenshot_b64 := some "shot", dom_snippet := some "<body>" }

/-- An environment whose oracle asks for a click that fails. -/
def clickFailEnv : StepEnv :=
  { raises := none,
    action_data := { action := some "click", selector := some "#buy-now",
                     value := some "", reasoning := some "buy the item" },
    page := emptyPage, eff := clickFailEffects, current_url := sampleUrl,
    timestamp := "2.00s", screenshot_b64 := some "shot2", dom_snippet := some "<div>" }

/-- A loop state in which failure evidence was already captured. -/
def capturedStartState : LoopState :=
  { startState with
    failure_captured := true,
    failure_info := some (mkEvidence 1 verifyFailEnv verifyFailEnv.action_data
      "Element not found"),
    captures := 1 }

/-- An engine that has already healed `#search-btn` to an aria-label
selector. -/
def cachedEngine : HealingEngineState :=
  { healing_history := [],
    healed_selectors := fun k =>
      if k = "#search-btn" then
        some { selector := some "[aria-label*=\"search\" i]",
               strategy := some "aria_label", confidence := some "high",
               healed_at := "t0" }
      else none }

/-- An engine with an empty cache and history. -/
def emptyEngine : HealingEngineState :=
  { healing_history := [], healed_selectors := fun _ => none }

/-- A page exposing one element matching the aria-label search
selector and nothing else. -/
def ariaHealPage : HealPage :=
  { locatorCount := fun sel => if sel = "[aria-label*=\"search\" i]" then 1 else 0,
    locatorFirstVisible := fun _ => false,
    textCount := fun _ => 0, textFirstVisible := fun _ => false }

/-! ## Claim theorems -/

/-- C1: for every completed run the final status is derived exactly as
the spec's invariant states: `"fail"` iff an error occurred, or an
action execution failed, or `passed < total`; otherwise
`"inconclusive"` iff `total = 0`; otherwise `"pass"`. In particular
`verifications = (total 3, passed 2, failed 1)` with no other error
yields `"fail"`. -/
theorem status_derivation_cases (error test_failed : Bool) (v_total v_passed : Nat) :
    ((derive_status error test_failed v_total v_passed = "fail") ↔
      (error = true ∨ test_failed = true ∨ v_passed < v_total))
    ∧ ((derive_status error test_failed v_total v_passed = "inconclusive") ↔
      (error = false ∧ test_failed = false ∧ ¬ v_passed < v_total ∧ v_total = 0))
    ∧ ((derive_status error test_failed v_total v_passed = "pass") ↔
      (error = false ∧ test_failed = false ∧ ¬ v_passed < v_total ∧ v_total ≠ 0))
    ∧ derive_status false false 3 2 = "fail" := by
  refine ⟨?_, ?_, ?_, by decide⟩ <;>
    by_cases hp : v_passed < v_total <;> by_cases ht : v_total = 0 <;>
      cases error <;> cases test_failed <;>
        simp [derive_status, Nat.pos_iff_ne_zero, hp, ht]

/-- C2 (evaluation at the failing inputs): with navigation succeeding,
a run with no AI controller configured — and likewise a run with an
empty instruction — raises `UnboundLocalError` out of the status
computation instead of folding the run into a returned
`TestOutcome`. -/
theorem run_test_unbound_local_eval :
    run_test false "click the login button" true (fun _ => waitEnv) =
      .error "UnboundLocalError: local variable test_failed referenced before assignment"
    ∧ run_test true "" true (fun _ => waitEnv) =
      .error "UnboundLocalError: local variable test_failed referenced before assignment" :=
  ⟨rfl, rfl⟩

/-- C3 (evaluation at the failing input): a `not_visible` verification
passes when the first match exists but is hidden, yet on a page where
the selector and both fallback resolutions match nothing the engine
returns `passed = false` with an "Element not found" reason — the
early return of worker.py lines 1046-1050 preempts the
absence-counts-as-pass arm of lines 1073-1077, contradicting the
claim (and the source's own comments). -/
theorem not_visible_absent_eval :
    (execute_verification hiddenBannerPage
      { action := some "verify", selector := some "#banner",
        verify_type := some "not_visible", expected := some "banner" }).passed = true
    ∧ (execute_verification emptyPage
      { action := some "verify", selector := some "#spinner",
        verify_type := some "not_visible", expected := some "spinner" }).passed = false
    ∧ (execute_verification emptyPage
      { action := some "verify", selector := some "#spinner",
        verify_type := some "not_visible", expected := some "spinner" }).reason =
      "Element not found. Tried selectors: #spinner (not found), " ++
        "text='spinner' (not found), [aria-label*=\"spinner\" i] (not found)" := by
  refine ⟨?_, ?_, ?_⟩ <;> rfl

/-- C9: the full case analysis of `detect_navigation`: the first call
records the baseline and returns `(false, "")`; thereafter a host
difference reports a domain change with `navigated = true`, else a
path difference reports a path change with `navigated = true`, else a
query-or-fragment difference returns `navigated = false` with the
params-changed description, else `(false, "")`. In particular URLs
differing only in query/fragment yield `navigated = false`. -/
theorem detect_navigation_cases (p current : UrlParts) :
    (detect_navigation none current = (some current, false, ""))
    ∧ (p.netloc ≠ current.netloc →
       detect_navigation (some p) current =
         (some current, true,
          "Domain changed: " ++ p.netloc ++ " → " ++ current.netloc))
    ∧ (p.netloc = current.netloc → p.path ≠ current.path →
       detect_navigation (some p) current =
         (some current, true,
          "Path changed: " ++ p.path ++ " → " ++ current.path))
    ∧ (p.netloc = current.netloc → p.path = current.path →
       (p.query ≠ current.query ∨ p.fragment ≠ current.fragment) →
       detect_navigation (some p) current =
         (some current, false, "URL params changed (possible state change)"))
    ∧ (p.netloc = current.netloc → p.path = current.path →
       p.query = current.query → p.fragment = current.fragment →
       detect_navigation (some p) current = (some p, false, "")) := by
  refine ⟨rfl, ?_, ?_, ?_, ?_⟩
  · intro h1
    simp [detect_navigation, h1]
  · intro h1 h2
    simp [detect_navigation, h1, h2]
  · intro h1 h2 h3
    simp [detect_navigation, h1, h2, h3]
  · intro h1 h2 h3 h4
    simp [detect_navigation, h1, h2, h3, h4]

/-- Witness for C9 at concrete URLs: a path-only difference navigates,
and a query-only difference does not. -/
theorem detect_navigation_cases_witness :
    ({ netloc := "shop.example.com", path := "/cart", query := "",
       fragment := "" } : UrlParts).netloc =
      ({ netloc := "shop.example.com", path := "/checkout", query := "ref=1",
         fragment := "" } : UrlParts).netloc
    ∧ detect_navigation
        (some { netloc := "shop.example.com", path := "/cart", query := "",
                fragment := "" })
        { netloc := "shop.example.com", path := "/checkout", query := "ref=1",
          fragment := "" } =
      (some { netloc := "shop.example.com", path := "/checkout", query := "ref=1",
              fragment := "" }, true, "Path changed: /cart → /checkout")
    ∧ detect_navigation
        (some { netloc := "shop.example.com", path := "/cart", query := "",
                fragment := "" })
        { netloc := "shop.example.com", path := "/cart", query := "page=2",
          fragment := "" } =
      (some { netloc := "shop.example.com", path := "/cart", query := "page=2",
              fragment := "" }, false, "URL params changed (possible state change)") :=
  ⟨rfl,
   (detect_navigation_cases
     { netloc := "shop.example.com", path := "/cart", query := "", fragment := "" }
     { netloc := "shop.example.com", path := "/checkout", query := "ref=1",
       fragment := "" }).2.2.1 rfl (by decide),
   (detect_navigation_cases
     { netloc := "shop.example.com", path := "/cart", query := "", fragment := "" }
     { netloc := "shop.example.com", path := "/cart", query := "page=2",
       fragment := "" }).2.2.2.1 rfl rfl (Or.inl (by decide))⟩

/-- C6: every transport/call failure and every unparseable oracle
response degrade to a synthetic `wait` action whose `reasoning`
carries the diagnostic; `analyze_page_and_get_action` is total, so
nothing is raised to its caller. -/
theorem oracle_failure_degrades_to_wait
    (parseJson : String → Except String ActionData) (e raw msg : String) :
    analyze_page_and_get_action parseJson (.failure e) =
      { action := some "wait", selector := some "", value := some "",
        reasoning := some ("AI request failed: " ++ e) }
    ∧ (parseJson (extract_json_content raw) = .error msg →
       analyze_page_and_get_action parseJson (.response raw) =
         { action := some "wait", selector := some "", value := some "",
           reasoning := some ("AI response was not valid JSON: " ++ msg) }) := by
  refine ⟨rfl, fun h => ?_⟩
  simp [analyze_page_and_get_action, h]

/-- Witness for C6: a concrete always-failing parser, a transport
error, and a malformed response. -/
theorem oracle_failure_degrades_to_wait_witness :
    (fun (_ : String) => (.error "Expecting value: line 1 column 1 (char 0)" :
        Except String ActionData)) (extract_json_content "I could not decide.") =
      .error "Expecting value: line 1 column 1 (char 0)"
    ∧ analyze_page_and_get_action
        (fun _ => .error "Expecting value: line 1 column 1 (char 0)")
        (.failure "connection reset") =
      { action := some "wait", selector := some "", value := some "",
        reasoning := some ("AI request failed: " ++ "connection reset") }
    ∧ analyze_page_and_get_action
        (fun _ => .error "Expecting value: line 1 column 1 (char 0)")
        (.response "I could not decide.") =
      { action := some "wait", selector := some "", value := some "",
        reasoning := some ("AI response was not valid JSON: " ++
          "Expecting value: line 1 column 1 (char 0)") } :=
  ⟨rfl,
   (oracle_failure_degrades_to_wait
     (fun _ => .error "Expecting value: line 1 column 1 (char 0)")
     "connection reset" "I could not decide."
     "Expecting value: line 1 column 1 (char 0)").1,
   (oracle_failure_degrades_to_wait
     (fun _ => .error "Expecting value: line 1 column 1 (char 0)")
     "connection reset" "I could not decide."
     "Expecting value: line 1 column 1 (char 0)").2 rfl⟩

/-- C10: an action dictionary whose kind is none of the seven known
kinds falls through every dispatch branch of `execute_action` to the
failure return `False`, for every page and every effect behaviour — it
is returned, not raised. -/
theorem unknown_action_returns_false (eff : ExecEffects) (page : VPage)
    (a : ActionData) (k : String) (hk : a.action = some k)
    (hmem : k ∉ (["click", "type", "press", "navigate", "wait", "verify",
      "complete"] : List String)) :
    execute_action eff page a = .bool false := by
  simp only [List.mem_cons, List.mem_singleton, not_or] at hmem
  obtain ⟨h1, h2, h3, h4, h5, h6, h7, -⟩ := hmem
  simp [execute_action, hk, h1, h2, h3, h4, h5, h6, h7, pure, Except.pure]

/-- Witness for C10: a `scroll` action returns `False` even with
all-succeeding effects. -/
theorem unknown_action_returns_false_witness :
    execute_action okEffects emptyPage
      { action := some "scroll", selector := some "#footer" } = .bool false :=
  unknown_action_returns_false okEffects emptyPage
    { action := some "scroll", selector := some "#footer" } "scroll" rfl
    (by decide)

/-! ## Loop invariant lemmas -/

/-- `trackState` only touches the step counter and the tracker
baseline. -/
theorem trackState_fields (env : StepEnv) (s : LoopState) :
    (trackState env s).step_count = s.step_count + 1
    ∧ (trackState env s).failure_captured = s.failure_captured
    ∧ (trackState env s).failure_info = s.failure_info
    ∧ (trackState env s).captures = s.captures :=
  ⟨rfl, rfl, rfl, rfl⟩

/-- The loop body never changes the step counter. -/
theorem loop_body_step_count (env : StepEnv) (s : LoopState) :
    ((loop_body env s).1).step_count = s.step_count := by
  simp only [loop_body]
  repeat' split
  all_goals rfl

/-- Once evidence is captured, the loop body keeps the captured flag,
the evidence and the capture count unchanged. -/
theorem loop_body_frozen (env : StepEnv) (s : LoopState)
    (h : s.failure_captured = true) :
    ((loop_body env s).1).failure_captured = true
    ∧ ((loop_body env s).1).failure_info = s.failure_info
    ∧ ((loop_body env s).1).captures = s.captures := by
  simp only [loop_body]
  repeat' split
  all_goals simp_all

/-- Before any capture, one loop body either captures nothing or
captures exactly once. -/
theorem loop_body_capture_cases (env : StepEnv) (s : LoopState)
    (h : s.failure_captured = false) :
    (((loop_body env s).1).failure_captured = false
      ∧ ((loop_body env s).1).captures = s.captures)
    ∨ (((loop_body env s).1).failure_captured = true
      ∧ ((loop_body env s).1).captures = s.captures + 1) := by
  simp only [loop_body]
  repeat' split
  all_goals simp_all

/-- The loop performs at most `fuel` further iterations. -/
theorem stepLoop_step_count_le (beh : Nat → StepEnv) :
    ∀ fuel s, (stepLoop beh fuel s).step_count ≤ s.step_count + fuel := by
  intro fuel
  induction fuel with
  | zero => intro s; exact Nat.le_refl _
  | succ n ih =>
    intro s
    simp only [stepLoop]
    rcases heq : loop_body (beh (s.step_count + 1))
        (trackState (beh (s.step_count + 1)) s) with ⟨s2, cont⟩
    have h2 : s2.step_count = s.step_count + 1 := by
      have h := loop_body_step_count (beh (s.step_count + 1))
        (trackState (beh (s.step_count + 1)) s)
      rw [heq] at h
      exact h
    cases cont
    · show s2.step_count ≤ s.step_count + (n + 1)
      omega
    · show (stepLoop beh n s2).step_count ≤ s.step_count + (n + 1)
      have h4 := ih s2
      omega

/-- The loop only increases the step counter. -/
theorem stepLoop_step_count_mono (beh : Nat → StepEnv) :
    ∀ fuel s, s.step_count ≤ (stepLoop beh fuel s).step_count := by
  intro fuel
  induction fuel with
  | zero => intro s; exact Nat.le_refl _
  | succ n ih =>
    intro s
    simp only [stepLoop]
    rcases heq : loop_body (beh (s.step_count + 1))
        (trackState (beh (s.step_count + 1)) s) with ⟨s2, cont⟩
    have h2 : s2.step_count = s.step_count + 1 := by
      have h := loop_body_step_count (beh (s.step_count + 1))
        (trackState (beh (s.step_count + 1)) s)
      rw [heq] at h
      exact h
    cases cont
    · show s.step_count ≤ s2.step_count
      omega
    · show s.step_count ≤ (stepLoop beh n s2).step_count
      have h4 := ih s2
      omega

/-- With at least one iteration of budget left, the loop takes at
least one step. -/
theorem stepLoop_step_count_ge_succ (beh : Nat → StepEnv) (fuel : Nat)
    (s : LoopState) (hfuel : 1 ≤ fuel) :
    s.step_count + 1 ≤ (stepLoop beh fuel s).step_count := by
  rcases Nat.exists_eq_add_of_le hfuel with ⟨n, rfl⟩
  rw [Nat.add_comm 1 n]
  simp only [stepLoop]
  rcases heq : loop_body (beh (s.step_count + 1))
      (trackState (beh (s.step_count + 1)) s) with ⟨s2, cont⟩
  have h2 : s2.step_count = s.step_count + 1 := by
    have h := loop_body_step_count (beh (s.step_count + 1))
      (trackState (beh (s.step_count + 1)) s)
    rw [heq] at h
    exact h
  cases cont
  · show s.step_count + 1 ≤ s2.step_count
    omega
  · show s.step_count + 1 ≤ (stepLoop beh n s2).step_count
    have h4 := stepLoop_step_count_mono beh n s2
    omega

/-- Once evidence is captured, the whole remaining loop keeps the
captured flag, the evidence and the capture count unchanged. -/
theorem stepLoop_frozen (beh : Nat → StepEnv) :
    ∀ fuel s, s.failure_captured = true →
    (stepLoop beh fuel s).failure_captured = true
    ∧ (stepLoop beh fuel s).failure_info = s.failure_info
    ∧ (stepLoop beh fuel s).captures = s.captures := by
  intro fuel
  induction fuel with
  | zero => intro s h; exact ⟨h, rfl, rfl⟩
  | succ n ih =>
    intro s h
    simp only [stepLoop]
    rcases heq : loop_body (beh (s.step_count + 1))
        (trackState (beh (s.step_count + 1)) s) with ⟨s2, cont⟩
    have h2 : s2.failure_captured = true ∧ s2.failure_info = s.failure_info
        ∧ s2.captures = s.captures := by
      have hb := loop_body_frozen (beh (s.step_count + 1))
        (trackState (beh (s.step_count + 1)) s) h
      rw [heq] at hb
      exact hb
    cases cont
    · exact h2
    · have h4 := ih s2 h2.1
      exact ⟨h4.1, h4.2.1.trans h2.2.1, h4.2.2.trans h2.2.2⟩

/-- Starting with no capture, the loop captures evidence at most
once. -/
theorem stepLoop_captures_le (beh : Nat → StepEnv) :
    ∀ fuel s, s.failure_captured = false →
    (stepLoop beh fuel s).captures ≤ s.captures + 1 := by
  intro fuel
  induction fuel with
  | zero => intro s _; exact Nat.le_succ _
  | succ n ih =>
    intro s h
    simp only [stepLoop]
    rcases heq : loop_body (beh (s.step_count + 1))
        (trackState (beh (s.step_count + 1)) s) with ⟨s2, cont⟩
    have h2 : (s2.failure_captured = false ∧ s2.captures = s.captures)
        ∨ (s2.failure_captured = true ∧ s2.captures = s.captures + 1) := by
      have hb := loop_body_capture_cases (beh (s.step_count + 1))
        (trackState (beh (s.step_count + 1)) s) h
      rw [heq] at hb
      exact hb
    cases cont
    · show s2.captures ≤ s.captures + 1
      rcases h2 with ⟨-, hc⟩ | ⟨-, hc⟩ <;> omega
    · show (stepLoop beh n s2).captures ≤ s.captures + 1
      rcases h2 with ⟨hf, hc⟩ | ⟨hf, hc⟩
      · have h4 := ih s2 hf
        omega
      · have h4 := (stepLoop_frozen beh n s2 hf).2.2
        omega

/-- C4: for every oracle and environment behaviour, the execution loop
performs at most 10 decision steps: the step counter never exceeds the
fixed ceiling of 10. -/
theorem loop_step_ceiling (beh : Nat → StepEnv) :
    (run_ai_loop beh).step_count ≤ 10 := by
  have h := stepLoop_step_count_le beh 10 startState
  simpa [run_ai_loop, startState] using h

/-- C5: at most one `FailureEvidence` is captured per run, and once
evidence is captured no later action or verification failure in the
same run overwrites or adds evidence. -/
theorem single_failure_evidence (beh : Nat → StepEnv) :
    (run_ai_loop beh).captures ≤ 1
    ∧ ∀ fuel s, s.failure_captured = true →
        (stepLoop beh fuel s).failure_info = s.failure_info := by
  constructor
  · have h := stepLoop_captures_le beh 10 startState rfl
    simpa [run_ai_loop, startState] using h
  · intro fuel s h
    exact (stepLoop_frozen beh fuel s h).2.1

/-- Witness for C5: a concrete already-captured state is preserved over
five further verification-failing iterations, and a full run captures
at most once. -/
theorem single_failure_evidence_witness :
    (stepLoop (fun _ => verifyFailEnv) 5 capturedStartState).failure_info =
      capturedStartState.failure_info
    ∧ (run_ai_loop (fun _ => verifyFailEnv)).captures ≤ 1 :=
  ⟨(single_failure_evidence (fun _ => verifyFailEnv)).2 5 capturedStartState rfl,
   (single_failure_evidence (fun _ => verifyFailEnv)).1⟩

/-- With no raise, a `verify` decision always continues the loop. -/
theorem loop_body_continue_of_verify (env : StepEnv) (s : LoopState)
    (hr : env.raises = none) (hv : env.action_data.action = some "verify") :
    (loop_body env s).2 = true := by
  have he : execute_action env.eff env.page env.action_data =
      .verify (execute_verification env.page env.action_data) := by
    simp [execute_action, hv, pure, Except.pure]
  simp [loop_body, hr, hv, he]

/-- With no raise, a non-`complete`, non-`verify` decision whose
execution fails breaks the loop without touching the step counter. -/
theorem loop_body_break_of_action_failure (env : StepEnv) (s : LoopState)
    (hr : env.raises = none) (k : String)
    (hk : env.action_data.action = some k)
    (hkc : k ≠ "complete") (hkv : k ≠ "verify")
    (hfalse : (execute_action env.eff env.page env.action_data).toBool = false) :
    (loop_body env s).2 = false ∧ ((loop_body env s).1).step_count = s.step_count := by
  simp only [loop_body, hr, hk, Option.getD_some, hfalse]
  rw [if_neg hkc, if_neg hkv]
  repeat' split
  all_goals simp_all

/-- C7: in every loop iteration, a failed verification never by itself
terminates the loop — with budget left, the run reaches the next step
— whereas a failed non-verify action always breaks the loop: the step
counter stops at the current step. -/
theorem verify_continues_action_breaks (beh : Nat → StepEnv) (s : LoopState)
    (fuel : Nat) :
    ((beh (s.step_count + 1)).raises = none →
     (beh (s.step_count + 1)).action_data.action = some "verify" →
     (execute_verification (beh (s.step_count + 1)).page
        (beh (s.step_count + 1)).action_data).passed = false →
     s.step_count + 2 ≤ (stepLoop beh (fuel + 2) s).step_count)
    ∧ ((beh (s.step_count + 1)).raises = none →
       ∀ k, (beh (s.step_count + 1)).action_data.action = some k →
       k ≠ "complete" → k ≠ "verify" →
       (execute_action (beh (s.step_count + 1)).eff (beh (s.step_count + 1)).page
          (beh (s.step_count + 1)).action_data).toBool = false →
       (stepLoop beh (fuel + 1) s).step_count = s.step_count + 1) := by
  constructor
  · intro hr hv _hfail
    have hfe : fuel + 2 = (fuel + 1) + 1 := rfl
    rw [hfe]
    simp only [stepLoop]
    rcases heq : loop_body (beh (s.step_count + 1))
        (trackState (beh (s.step_count + 1)) s) with ⟨s2, cont⟩
    have hcont : cont = true := by
      have hc := loop_body_continue_of_verify (beh (s.step_count + 1))
        (trackState (beh (s.step_count + 1)) s) hr hv
      rw [heq] at hc
      exact hc
    subst hcont
    have h2 : s2.step_count = s.step_count + 1 := by
      have h := loop_body_step_count (beh (s.step_count + 1))
        (trackState (beh (s.step_count + 1)) s)
      rw [heq] at h
      exact h
    show s.step_count + 2 ≤ (stepLoop beh (fuel + 1) s2).step_count
    have h4 := stepLoop_step_count_ge_succ beh (fuel + 1) s2 (by omega)
    omega
  · intro hr k hk hkc hkv hfalse
    simp only [stepLoop]
    rcases heq : loop_body (beh (s.step_count + 1))
        (trackState (beh (s.step_count + 1)) s) with ⟨s2, cont⟩
    have hb : cont = false ∧ s2.step_count = s.step_count + 1 := by
      have h := loop_body_break_of_action_failure (beh (s.step_count + 1))
        (trackState (beh (s.step_count + 1)) s) hr k hk hkc hkv hfalse
      rw [heq] at h
      exact ⟨h.1, h.2⟩
    rcases hb with ⟨hcont, hsc⟩
    subst hcont
    show s2.step_count = s.step_count + 1
    exact hsc

/-- Witness for C7: a failing `exists` verification at step 1 lets the
run reach step 2, while a failing click at step 1 ends the run at
step 1. -/
theorem verify_continues_action_breaks_witness :
    startState.step_count + 2 ≤
      (stepLoop (fun _ => verifyFailEnv) 2 startState).step_count
    ∧ (stepLoop (fun _ => clickFailEnv) 1 startState).step_count =
      startState.step_count + 1 :=
  ⟨(verify_continues_action_breaks (fun _ => verifyFailEnv) startState 0).1
     rfl rfl (by decide),
   (verify_continues_action_breaks (fun _ => clickFailEnv) startState 0).2
     rfl "click" rfl (by decide) (by decide) (by decide)⟩

/-- C8: a healing lookup consults the cache first — when the cached
selector still resolves to at least one element it is reused directly,
reported with strategy `cached_healing` and the cached confidence,
with the engine state untouched (no healing strategy is attempted: the
outcome does not depend on the strategy arguments at all) — and every
first successful healing strategy is cached under the original
selector. -/
theorem healing_cache_reuse_and_store (page : HealPage) (orig : String)
    (context : ActionData) (ai : Bool)
    (healByText : String → Option StrategySuccess)
    (healByAria healByTestid healByAI : Option StrategySuccess)
    (now : String) (engine : HealingEngineState) :
    (∀ cached csel,
      engine.healed_selectors orig = some cached →
      cached.selector = some csel →
      0 < page.locatorCount csel →
      find_element_with_healing page orig context ai healByText healByAria
          healByTestid healByAI now engine =
        ({ found := true, healed := true, original_selector := orig,
           healed_selector := some csel, strategy_used := some "cached_healing",
           confidence := cached.confidence.getD "medium" }, engine))
    ∧ (∀ res eng2,
        find_element_with_healing page orig context ai healByText healByAria
            healByTestid healByAI now engine = (res, eng2) →
        res.healed = true →
        res.strategy_used ≠ some "cached_healing" →
        eng2.healed_selectors orig =
          some { selector := res.healed_selector, strategy := res.strategy_used,
                 confidence := some res.confidence, healed_at := now }) := by
  constructor
  · intro cached csel h1 h2 h3
    simp [find_element_with_healing, cache_lookup, h1, h2, h3]
  · intro res eng2 heq hh hs
    simp only [find_element_with_healing] at heq
    split at heq
    · exfalso
      rename_i r hr
      rw [Prod.mk.injEq] at heq
      obtain ⟨hres, -⟩ := heq
      subst hres
      apply hs
      simp only [cache_lookup] at hr
      repeat' split at hr
      all_goals
        first
          | exact Option.noConfusion hr
          | (obtain hres := Option.some.inj hr
             subst hres
             rfl)
    · repeat' split at heq
      all_goals
        (rw [Prod.mk.injEq] at heq
         obtain ⟨hres, heng⟩ := heq
         subst hres
         subst heng
         simp_all [cache_healing])

/-- Witness for C8: a cached healing of `#search-btn` is reused
directly with the cached confidence and an unchanged engine, and a
fresh aria-label healing of the same selector is stored in the
cache. -/
theorem healing_cache_reuse_and_store_witness :
    find_element_with_healing ariaHealPage "#search-btn"
        { action := some "click", reasoning := some "click the search icon" }
        true (fun _ => none) none none none "t1" cachedEngine =
      ({ found := true, healed := true, original_selector := "#search-btn",
         healed_selector := some "[aria-label*=\"search\" i]",
         strategy_used := some "cached_healing", confidence := "high" },
       cachedEngine)
    ∧ (find_element_with_healing ariaHealPage "#search-btn"
        { action := some "click", reasoning := some "click the search icon" }
        true (fun _ => none)
        (some { selector := "[aria-label*=\"search\" i]",
                strategy := "aria_label", confidence := "high" })
        none none "t1" emptyEngine).2.healed_selectors "#search-btn" =
      some { selector := some "[aria-label*=\"search\" i]",
             strategy := some "aria_label", confidence := some "high",
             healed_at := "t1" } := by
  constructor
  · exact (healing_cache_reuse_and_store ariaHealPage "#search-btn"
      { action := some "click", reasoning := some "click the search icon" }
      true (fun _ => none) none none none "t1" cachedEngine).1
      { selector := some "[aria-label*=\"search\" i]",
        strategy := some "aria_label", confidence := some "high",
        healed_at := "t0" }
      "[aria-label*=\"search\" i]" (by decide) rfl (by decide)
  · have h := (healing_cache_reuse_and_store ariaHealPage "#search-btn"
      { action := some "click", reasoning := some "click the search icon" }
      true (fun _ => none)
      (some { selector := "[aria-label*=\"search\" i]",
              strategy := "aria_label", confidence := "high" })
      none none "t1" emptyEngine).2
      (find_element_with_healing ariaHealPage "#search-btn"
        { action := some "click", reasoning := some "click the search icon" }
        true (fun _ => none)
        (some { selector := "[aria-label*=\"search\" i]",
                strategy := "aria_label", confidence := "high" })
        none none "t1" emptyEngine).1
      (find_element_with_healing ariaHealPage "#search-btn"
        { action := some "click", reasoning := some "click the search icon" }
        true (fun _ => none)
        (some { selector := "[aria-label*=\"search\" i]",
                strategy := "aria_label", confidence := "high" })
        none none "t1" emptyEngine).2
      rfl (by decide) (by decide)
    exact h.trans (by decide)

end SentinelQA
